import Mathlib

/-!
Shallow embedding of the AxzDict value engine (src/axzdict/axz_dict.h,
src/axzdict/axz_dict.cpp): the closed tag enumeration, one payload per tag,
the handle-level operations the verified claims are about, and the stepper
(visitor) dispatch.

Modelling conventions:
* `axz_wstring` (wide string) and `axz_bytes` are sequences of code units,
  embedded as `List Nat`.
* `double` payloads are embedded as exact rationals (`Rat`): the engine only
  stores and returns them (no floating-point arithmetic happens on the paths
  verified here), so the payload carrier is observationally irrelevant.
* `int32_t` payloads are embedded as `Int`; no arithmetic is performed on
  them by the verified operations (construct/store/read only).
* Functions that throw (`std::invalid_argument`, `std::out_of_range`) are
  embedded with `Except String`, carrying the source's message text.
* `axz_dict_object_safe` (`std::unordered_map`) is embedded as an association
  list; `find` returns the binding of the key when one exists.
-/

/-- Wide string (`axz_wstring`), as a list of code units. -/
abbrev AxzWString := List Nat

/-- Byte sequence (`axz_bytes`). -/
abbrev AxzBytes := List Nat

/-- The closed tag enumeration `AxzDictType` (axz_dict.h lines 94-105). -/
inductive AxzDictType where
  | nul
  | number
  | integral
  | bool
  | string
  | bytes
  | array
  | object
  | callable
deriving DecidableEq, Repr

/-- Result codes (`axz_rc`).  Modelled from the spec: the header
`axz_error_codes.h` defining `AXZ_OK`, `AXZ_OK_REPLACED`,
`AXZ_ERROR_NOT_SUPPORT`, `AXZ_ERROR_NOT_FOUND`, `AXZ_ERROR_OUT_OF_RANGE`,
`AXZ_ERROR_INVALID_INPUT` and `AXZ_ERROR_HASH_ERROR` is not among the
sources; spec section 7 lists them as seven distinct codes of the
result-code family, which the constructors of this inductive reproduce. -/
inductive AxzRc where
  | ok
  | okReplaced
  | notSupport
  | notFound
  | outOfRange
  | invalidInput
  | hashError
deriving DecidableEq, Repr

/-- One internal value representation per tag (classes `_AxzNull`, `_AxzBool`,
`_AxzDouble`, `_AxzInt`, `_AxzString`, `_AxzBytes`, `_AxzArray`, `_AxzObject`
of axz_dict.cpp).  No `CALLABLE` representation class exists in the sources
(no `_AxzCallable` is defined and no callable constructor is implemented), so
the embedding has no callable variant. -/
inductive AxzVal where
  | nul
  | number (q : Rat)
  | integral (n : Int)
  | bool (b : Bool)
  | string (s : AxzWString)
  | bytes (b : AxzBytes)
  | array (xs : List AxzVal)
  | object (m : List (AxzWString × AxzVal))

/-- Contents of the object representation (`axz_dict_object_safe`). -/
abbrev ObjMap := List (AxzWString × AxzVal)

/-- `m_val.find(key)` on the object map: the binding of `key`, if present. -/
def objFind (m : ObjMap) (k : AxzWString) : Option AxzVal :=
  match m with
  | [] => none
  | (k', v) :: rest => if k' = k then some v else objFind rest k

/-- `found->second = val`: replace the binding of an existing key. -/
def objAssign (m : ObjMap) (k : AxzWString) (v : AxzVal) : ObjMap :=
  match m with
  | [] => []
  | (k', w) :: rest =>
      if k' = k then (k', v) :: rest else (k', w) :: objAssign rest k v

/-- `m_val.emplace(key, val)` on `std::unordered_map`: insert only when the
key is absent; an existing binding is left untouched. -/
def objEmplace (m : ObjMap) (k : AxzWString) (v : AxzVal) : ObjMap :=
  match objFind m k with
  | some _ => m
  | none => m ++ [(k, v)]

/-- The key set of an object map, as collected by `AxzDict::keys`
(axz_dict.cpp lines 1313-1326): each `pair.first` inserted into a
`std::set`, i.e. the distinct keys. -/
def objKeys (m : ObjMap) : List AxzWString :=
  (m.map Prod.fst).dedup

/-- `AxzDict::type` / `_AxzTVal::type`: the tag of the current
representation. -/
def AxzVal.type : AxzVal → AxzDictType
  | .nul => .nul
  | .number _ => .number
  | .integral _ => .integral
  | .bool _ => .bool
  | .string _ => .string
  | .bytes _ => .bytes
  | .array _ => .array
  | .object _ => .object

/-- `AxzDict::size` (axz_dict.cpp line 1201 delegating to the
representation): `_AxzArray::size` and `_AxzObject::size` return the element
count; every other representation inherits `_AxzDicVal::size`
(axz_dict.cpp line 75), which throws `std::invalid_argument`.  In
particular `_AxzString` and `_AxzBytes` do NOT override `size`. -/
def AxzVal.size : AxzVal → Except String Nat
  | .array xs => .ok xs.length
  | .object m => .ok m.length
  | _ => .error "AxzDict::size available for object or array only"

/-- Truncation toward zero, the behaviour of the C++ cast
`( int32_t )double` on in-range values. -/
def ratTrunc (q : Rat) : Int :=
  if 0 ≤ q then ⌊q⌋ else ⌈q⌉

/-- `AxzDict::intVal`: `_AxzInt::intVal` returns the stored integer,
`_AxzDouble::intVal` returns the truncated cast of the stored double, every
other representation inherits the throwing default (axz_dict.cpp line
120). -/
def AxzVal.intVal : AxzVal → Except String Int
  | .integral n => .ok n
  | .number q => .ok (ratTrunc q)
  | _ => .error "AxzDict::intVal available for number only"

/-- `AxzDict::numberVal`: `_AxzDouble::numberVal` returns the stored double,
`_AxzInt::numberVal` returns the widening cast `( double )int32`, every other
representation inherits the throwing default (axz_dict.cpp line 119). -/
def AxzVal.numberVal : AxzVal → Except String Rat
  | .number q => .ok q
  | .integral n => .ok (n : Rat)
  | _ => .error "AxzDict::numberVal available for number only"

/-- `AxzDict::boolVal`: only `_AxzBool` overrides the throwing default
(axz_dict.cpp line 121). -/
def AxzVal.boolVal : AxzVal → Except String Bool
  | .bool b => .ok b
  | _ => .error "AxzDict::boolVal available for boolean only"

/-- `AxzDict::stringVal`: only `_AxzString` overrides the throwing default
(axz_dict.cpp line 122). -/
def AxzVal.stringVal : AxzVal → Except String AxzWString
  | .string s => .ok s
  | _ => .error "AxzDict::stringVal available for string only"

/-- `AxzDict::bytesVal`: only `_AxzBytes` overrides the throwing default
(axz_dict.cpp line 123). -/
def AxzVal.bytesVal : AxzVal → Except String AxzBytes
  | .bytes b => .ok b
  | _ => .error "AxzDict::bytesVal available for bytes only"

/-- The integer cache of `AxzDict::AxzDict(int)` (axz_dict.cpp lines
688-704): slot `i` of `cached_ints` holds `_AxzInt(i - 10)`. -/
def cachedInts (i : Int) : AxzVal :=
  AxzVal.integral (i - 10)

/-- `AxzDict::AxzDict(int)`: values in `[-10, 100]` are served from the
cache slot `value + 10`; others allocate a fresh `_AxzInt(value)`. -/
def AxzDict.ofInt (v : Int) : AxzVal :=
  if -10 ≤ v ∧ v ≤ 100 then cachedInts (v + 10) else AxzVal.integral v

/-- `AxzDict::AxzDict(double)` (axz_dict.cpp lines 706-708). -/
def AxzDict.ofDouble (d : Rat) : AxzVal :=
  AxzVal.number d

/-- `AxzDict::AxzDict(bool)` (axz_dict.cpp line 710): the `trueVal` /
`falseVal` flyweights, i.e. `_AxzBool(value)`. -/
def AxzDict.ofBool (b : Bool) : AxzVal :=
  AxzVal.bool b

/-- `AxzDict::AxzDict(const axz_wstring&)` (axz_dict.cpp lines 716-718). -/
def AxzDict.ofWString (s : AxzWString) : AxzVal :=
  AxzVal.string s

/-- `AxzDict::AxzDict(AxzDictType)` (axz_dict.cpp lines 729-756): the switch
has cases for NUL, BOOL, NUMBER, INTEGRAL, STRING, ARRAY and OBJECT;
`BYTES` and `CALLABLE` have no case and fall through to the `default`
branch, which installs the Null flyweight. -/
def AxzDict.ofType : AxzDictType → AxzVal
  | .nul => AxzVal.nul
  | .bool => AxzVal.bool false
  | .number => AxzVal.number 0
  | .integral => AxzVal.integral 0
  | .string => AxzVal.string []
  | .array => AxzVal.array []
  | .object => AxzVal.object []
  | .bytes => AxzVal.nul
  | .callable => AxzVal.nul

/-- `AxzDict::become` (axz_dict.cpp lines 1328-1357): unconditionally
replaces `m_val` via the same switch as the `AxzDictType` constructor; the
previous value is irrelevant. -/
def AxzDict.become (_v : AxzVal) (t : AxzDictType) : AxzVal :=
  AxzDict.ofType t

/-- Mutable keyed access `AxzDict::operator[](const axz_wstring&)`
(axz_dict.cpp lines 1271-1274): it delegates directly to `m_val->at(key)`.
`_AxzObject::at` (lines 452-467) returns the existing binding, inserting the
key with a Null value first when it is absent; every non-object
representation inherits `_AxzDicVal::at` (line 136), which throws
`std::invalid_argument` — no Null-to-Object promotion takes place.
The result pairs the referenced value with the updated container state. -/
def AxzVal.opIndexKey (v : AxzVal) (k : AxzWString) :
    Except String (AxzVal × AxzVal) :=
  match v with
  | .object m =>
      match objFind m k with
      | some w => .ok (w, .object m)
      | none => .ok (AxzVal.nul, .object (m ++ [(k, AxzVal.nul)]))
  | _ => .error "AxzDict::at@axz_wstring available for object only"

/-- `_AxzObject::add(const axz_wstring&, const AxzDict&)` (axz_dict.cpp
lines 410-424): absent key → insert, `AXZ_OK`; present key → assign the new
value to the existing binding, `AXZ_OK_REPLACED`. -/
def AxzObject.addKey (m : ObjMap) (k : AxzWString) (v : AxzVal) :
    AxzRc × ObjMap :=
  match objFind m k with
  | none => (AxzRc.ok, m ++ [(k, v)])
  | some _ => (AxzRc.okReplaced, objAssign m k v)

/-- One iteration of the merge loop of `_AxzObject::add(const AxzDict&)`
(axz_dict.cpp lines 379-387): `emplace(key, val[key])`, each wrapped in a
try/catch that skips the key on failure (`val[key]` throws only when `key`
is absent from the source, which cannot happen for keys drawn from
`val.keys()`). -/
def AxzObject.addAllStep (src : ObjMap) (acc : ObjMap) (k : AxzWString) :
    ObjMap :=
  match objFind src k with
  | some v => objEmplace acc k v
  | none => acc

/-- `_AxzObject::add(const AxzDict&)` (axz_dict.cpp lines 372-389): a
non-object source yields `AXZ_ERROR_INVALID_INPUT` with the receiver
untouched; an object source has each of its keys emplaced into the
receiver, and the call returns `AXZ_OK`. -/
def AxzObject.addAll (m : ObjMap) (src : AxzVal) : AxzRc × ObjMap :=
  match src with
  | .object ms => (AxzRc.ok, (objKeys ms).foldl (AxzObject.addAllStep ms) m)
  | _ => (AxzRc.invalidInput, m)

/-- `AxzDict::val(const axz_wstring&, AxzDict&)` (axz_dict.cpp lines
1145-1148, delegating to the representation): `_AxzObject::_val` returns
`AXZ_ERROR_NOT_FOUND` for an absent key and copies the binding out with
`AXZ_OK` otherwise; every non-object representation returns
`AXZ_ERROR_NOT_SUPPORT` (line 89).  The option is the written output
parameter (`none` when nothing was written). -/
def AxzVal.valKey (v : AxzVal) (k : AxzWString) : AxzRc × Option AxzVal :=
  match v with
  | .object m =>
      match objFind m k with
      | some w => (AxzRc.ok, some w)
      | none => (AxzRc.notFound, none)
  | _ => (AxzRc.notSupport, none)

/-- `AxzDict::dotVal(const axz_wstring&, AxzDict&)` (axz_dict.cpp lines
1381-1387): the body forwards the whole key string to the plain single-key
`val`; no dot-separated path parsing is performed. -/
def AxzVal.dotVal (v : AxzVal) (k : AxzWString) : AxzRc × Option AxzVal :=
  AxzVal.valKey v k

/-- `AxzDict::keys` (axz_dict.cpp lines 1313-1326): for an object, every
`pair.first` of the map is inserted into the result set; for any other tag
the result stays empty. -/
def AxzVal.keys : AxzVal → List AxzWString
  | .object m => objKeys m
  | _ => []

/-- `_AxzArray::add(const AxzDict&)` (axz_dict.cpp lines 275-279):
`emplace_back`, always `AXZ_OK`. -/
def AxzArray.add (xs : List AxzVal) (v : AxzVal) : AxzRc × List AxzVal :=
  (AxzRc.ok, xs ++ [v])

/-- `_AxzArray::remove(const size_t)` (axz_dict.cpp lines 287-294): out of
range → `AXZ_ERROR_OUT_OF_RANGE`; otherwise erase the element, shifting the
later ones down. -/
def AxzArray.remove (xs : List AxzVal) (idx : Nat) : AxzRc × List AxzVal :=
  if idx < xs.length then (AxzRc.ok, xs.eraseIdx idx)
  else (AxzRc.outOfRange, xs)

/-- `_AxzArray::at(const size_t)` (axz_dict.cpp lines 302-308): throws
`std::out_of_range` for an index past the end, else returns the slot. -/
def AxzArray.at (xs : List AxzVal) (idx : Nat) : Except String AxzVal :=
  if h : idx < xs.length then .ok (xs.get ⟨idx, h⟩)
  else .error "Index out of range"

/-- Grow-and-write helper for the indexed write: when the index is past the
end, the array is extended to length `i + 1` with Null in every new slot
before the written value is stored at `i`. -/
def growWrite (xs : List AxzVal) (i : Nat) (x : AxzVal) : List AxzVal :=
  if i < xs.length then xs.set i x
  else (xs ++ List.replicate (i + 1 - xs.length) AxzVal.nul).set i x

/-- Modelled from the spec: `AxzDict::operator[](const size_t)` is declared
at axz_dict.h lines 470-471 but no definition exists in the sources (only
the declaration and callers such as the enhanced test's `arr[10]`).  Spec
section 4.2: indexed write access converts Null into an Array and, if the
requested index is at or past the current length, grows the array to reach
it, filling all intervening slots with Null; the write then stores the
assigned value at the requested index and does not fail.  Any other tag is
a container-type contract violation (hard failure, spec sections 4.1/7).
The returned value is the whole container after the write `v[i] = x`. -/
def AxzVal.opIndexWrite (v : AxzVal) (i : Nat) (x : AxzVal) :
    Except String AxzVal :=
  match v with
  | .nul => .ok (AxzVal.array (growWrite [] i x))
  | .array xs => .ok (AxzVal.array (growWrite xs i x))
  | _ => .error "AxzDict::at@size_t available for array only"

/-- The stepper capability interface `AxzDictStepper`
(axz_dict_stepper.h lines 21-45): one callback per variant.  For the
object variant, `_AxzObject`'s payload is the safe map, so dispatch reaches
the safe-object overload, embedded here as `stepObject` over `ObjMap`. -/
structure AxzDictStepper (α : Type) where
  stepNull : α
  stepBool : Bool → α
  stepInt : Int → α
  stepNumber : Rat → α
  stepString : AxzWString → α
  stepBytes : AxzBytes → α
  stepArray : List AxzVal → α
  stepObject : ObjMap → α

/-- `AxzDict::step` (axz_dict.cpp lines 1364-1367) delegating to
`_AxzTVal::step` (lines 157-159): one call `stepper->step(this->data())`,
with C++ overload resolution selecting the callback whose parameter type is
the representation's payload type. -/
def AxzVal.step (v : AxzVal) (s : AxzDictStepper α) : α :=
  match v with
  | .nul => s.stepNull
  | .bool b => s.stepBool b
  | .integral n => s.stepInt n
  | .number q => s.stepNumber q
  | .string str => s.stepString str
  | .bytes bs => s.stepBytes bs
  | .array xs => s.stepArray xs
  | .object m => s.stepObject m

/-- A record of one stepper-callback invocation, tagged with the payload
that was delivered. -/
inductive StepCall where
  | onNull
  | onBool (b : Bool)
  | onInt (n : Int)
  | onNumber (q : Rat)
  | onString (s : AxzWString)
  | onBytes (b : AxzBytes)
  | onArray (xs : List AxzVal)
  | onObject (m : ObjMap)

/-- The tag a recorded callback corresponds to. -/
def StepCall.tag : StepCall → AxzDictType
  | .onNull => .nul
  | .onBool _ => .bool
  | .onInt _ => .integral
  | .onNumber _ => .number
  | .onString _ => .string
  | .onBytes _ => .bytes
  | .onArray _ => .array
  | .onObject _ => .object

/-- An instrumented stepper whose every callback records exactly its own
invocation; the trace of a `step` call is the list of callbacks invoked. -/
def recordingStepper : AxzDictStepper (List StepCall) where
  stepNull := [StepCall.onNull]
  stepBool := fun b => [StepCall.onBool b]
  stepInt := fun n => [StepCall.onInt n]
  stepNumber := fun q => [StepCall.onNumber q]
  stepString := fun s => [StepCall.onString s]
  stepBytes := fun b => [StepCall.onBytes b]
  stepArray := fun xs => [StepCall.onArray xs]
  stepObject := fun m => [StepCall.onObject m]

/-! ## Helper lemmas about the object map and array growth -/

theorem objFind_append (a b : ObjMap) (k : AxzWString) :
    objFind (a ++ b) k =
      match objFind a k with
      | some v => some v
      | none => objFind b k := by
  induction a with
  | nil => simp [objFind]
  | cons p rest ih =>
    obtain ⟨k', v⟩ := p
    by_cases h : k' = k <;> simp [objFind, h, ih]

theorem objFind_emplace_isSome (m : ObjMap) (k : AxzWString) (v : AxzVal) :
    (objFind (objEmplace m k v) k).isSome = true := by
  unfold objEmplace
  cases h : objFind m k with
  | some w => simp [h]
  | none => rw [objFind_append, h]; simp [objFind]

theorem objFind_emplace_preserve (m : ObjMap) (k k' : AxzWString)
    (v : AxzVal) (h : (objFind m k').isSome = true) :
    (objFind (objEmplace m k v) k').isSome = true := by
  unfold objEmplace
  cases hf : objFind m k with
  | some w => exact h
  | none =>
    rw [objFind_append]
    cases h' : objFind m k' with
    | some w => simp
    | none => rw [h'] at h; simp at h

theorem addAllStep_preserve (src acc : ObjMap) (k k' : AxzWString)
    (h : (objFind acc k').isSome = true) :
    (objFind (AxzObject.addAllStep src acc k) k').isSome = true := by
  unfold AxzObject.addAllStep
  cases objFind src k with
  | some v => exact objFind_emplace_preserve _ _ _ _ h
  | none => exact h

theorem foldl_addAllStep_preserve (src : ObjMap) (ks : List AxzWString)
    (acc : ObjMap) (k' : AxzWString) (h : (objFind acc k').isSome = true) :
    (objFind (ks.foldl (AxzObject.addAllStep src) acc) k').isSome = true := by
  induction ks generalizing acc with
  | nil => exact h
  | cons a ks ih => exact ih _ (addAllStep_preserve _ _ _ _ h)

theorem objFind_isSome_of_mem (m : ObjMap) (k : AxzWString)
    (h : k ∈ m.map Prod.fst) : (objFind m k).isSome = true := by
  induction m with
  | nil => simp at h
  | cons p rest ih =>
    obtain ⟨k', v⟩ := p
    by_cases hk : k' = k
    · simp [objFind, hk]
    · simp only [List.map_cons, List.mem_cons] at h
      rcases h with h | h
      · exact absurd h.symm hk
      · simp only [objFind, if_neg hk]
        exact ih h

theorem mem_of_objFind_isSome (m : ObjMap) (k : AxzWString)
    (h : (objFind m k).isSome = true) : k ∈ m.map Prod.fst := by
  induction m with
  | nil => simp [objFind] at h
  | cons p rest ih =>
    obtain ⟨k', v⟩ := p
    by_cases hk : k' = k
    · simp [hk]
    · simp only [objFind, if_neg hk] at h
      simp only [List.map_cons, List.mem_cons]
      exact Or.inr (ih h)

theorem foldl_addAllStep_mem (src : ObjMap) (ks : List AxzWString)
    (k : AxzWString) (hs : (objFind src k).isSome = true) :
    ∀ acc : ObjMap, k ∈ ks →
      (objFind (ks.foldl (AxzObject.addAllStep src) acc) k).isSome = true := by
  induction ks with
  | nil => intro acc hk; simp at hk
  | cons a ks ih =>
    intro acc hk
    rw [List.foldl_cons]
    rcases List.mem_cons.mp hk with rfl | hmem
    · refine foldl_addAllStep_preserve _ _ _ _ ?_
      unfold AxzObject.addAllStep
      cases h : objFind src k with
      | some v => exact objFind_emplace_isSome _ _ _
      | none => rw [h] at hs; simp at hs
    · exact ih _ hmem

theorem objAssign_length (m : ObjMap) (k : AxzWString) (v : AxzVal) :
    (objAssign m k v).length = m.length := by
  induction m with
  | nil => rfl
  | cons p rest ih =>
    obtain ⟨k', w⟩ := p
    by_cases h : k' = k <;> simp [objAssign, h, ih]

theorem objFind_objAssign_self (m : ObjMap) (k : AxzWString) (v : AxzVal)
    (h : (objFind m k).isSome = true) :
    objFind (objAssign m k v) k = some v := by
  induction m with
  | nil => simp [objFind] at h
  | cons p rest ih =>
    obtain ⟨k', w⟩ := p
    by_cases hk : k' = k
    · simp [objAssign, objFind, hk]
    · simp only [objFind, if_neg hk] at h
      simp only [objAssign, if_neg hk, objFind, if_neg hk]
      exact ih h

theorem growWrite_length (xs : List AxzVal) (i : Nat) (x : AxzVal)
    (h : xs.length ≤ i) : (growWrite xs i x).length = i + 1 := by
  unfold growWrite
  rw [if_neg (by omega)]
  rw [List.length_set, List.length_append, List.length_replicate]
  omega

theorem growWrite_get_mid (xs : List AxzVal) (i j : Nat) (x : AxzVal)
    (hn : xs.length ≤ j) (hj : j < i) :
    (growWrite xs i x)[j]? = some AxzVal.nul := by
  unfold growWrite
  rw [if_neg (by omega)]
  rw [List.getElem?_set_ne (by omega)]
  rw [List.getElem?_append_right hn, List.getElem?_replicate]
  rw [if_pos (by omega)]

theorem growWrite_get_last (xs : List AxzVal) (i : Nat) (x : AxzVal)
    (h : xs.length ≤ i) : (growWrite xs i x)[i]? = some x := by
  unfold growWrite
  rw [if_neg (by omega)]
  rw [List.getElem?_set_self]
  rw [List.length_append, List.length_replicate]
  omega

/-! ## Claim theorems -/

/-- C1 counterexample: the claim states that a keyed write access on a Null
value promotes it to an Object and does not fail; on the code, the mutable
`operator[]` delegates to `at(key)`, whose non-object default throws, so the
access on a Null value at the concrete key "a" fails. -/
theorem keyed_write_on_null_fails :
    (AxzVal.nul.opIndexKey [97]).isOk = false := rfl

/-- C1 (amended): keyed write access on a Null value does not promote: it
throws `std::invalid_argument` for every key; the auto-insertion of an
absent key bound to Null happens only on a value that is already an Object. -/
theorem keyed_write_null_throws_object_autoinserts :
    (∀ k : AxzWString, AxzVal.nul.opIndexKey k =
      Except.error "AxzDict::at@axz_wstring available for object only") ∧
    (∀ (m : ObjMap) (k : AxzWString), objFind m k = none →
      (AxzVal.object m).opIndexKey k =
        Except.ok (AxzVal.nul, AxzVal.object (m ++ [(k, AxzVal.nul)]))) := by
  constructor
  · intro k; rfl
  · intro m k h
    simp [AxzVal.opIndexKey, h]

/-- Witness for the amended C1 theorem at the empty object and key "a". -/
theorem keyed_write_null_throws_object_autoinserts_witness :
    (AxzVal.object []).opIndexKey [97] =
      Except.ok (AxzVal.nul, AxzVal.object [([97], AxzVal.nul)]) :=
  keyed_write_null_throws_object_autoinserts.2 [] [97] rfl

/-- C2: indexed write access on an Array of length `n` at an index `i ≥ n`
grows the array to length `i + 1`, fills the intervening slots `n..i-1`
with Null, stores the written value at index `i`, and does not fail; in
particular `a[5] = X` on an empty array gives `size() = 6`, Null at indices
0 through 4 and `X` at index 5.  (`operator[](size_t)` is modelled from the
spec, its definition being absent from the sources.) -/
theorem indexed_write_grows_array :
    (∀ (xs : List AxzVal) (i : Nat) (x : AxzVal), xs.length ≤ i →
      ∃ ys : List AxzVal,
        (AxzVal.array xs).opIndexWrite i x = Except.ok (AxzVal.array ys) ∧
        ys.length = i + 1 ∧
        (∀ j, xs.length ≤ j → j < i → ys[j]? = some AxzVal.nul) ∧
        ys[i]? = some x) ∧
    (∀ x : AxzVal, ∃ ys : List AxzVal,
      (AxzVal.array []).opIndexWrite 5 x = Except.ok (AxzVal.array ys) ∧
      (AxzVal.array ys).size = Except.ok 6 ∧
      (∀ j, j ≤ 4 → ys[j]? = some AxzVal.nul) ∧
      ys[5]? = some x) := by
  constructor
  · intro xs i x h
    refine ⟨growWrite xs i x, rfl, growWrite_length xs i x h, ?_, ?_⟩
    · intro j hn hj; exact growWrite_get_mid xs i j x hn hj
    · exact growWrite_get_last xs i x h
  · intro x
    refine ⟨growWrite [] 5 x, rfl, ?_, ?_, ?_⟩
    · show Except.ok (growWrite [] 5 x).length = Except.ok 6
      rw [growWrite_length [] 5 x (by simp)]
    · intro j hj
      exact growWrite_get_mid [] 5 j x (by simp) (by omega)
    · exact growWrite_get_last [] 5 x (by simp)

/-- Witness for C2 at the empty array, index 5, value `true`. -/
theorem indexed_write_grows_array_witness :
    ∃ ys : List AxzVal,
      (AxzVal.array []).opIndexWrite 5 (AxzVal.bool true) =
        Except.ok (AxzVal.array ys) ∧
      ys.length = 5 + 1 ∧
      (∀ j, ([] : List AxzVal).length ≤ j → j < 5 →
        ys[j]? = some AxzVal.nul) ∧
      ys[5]? = some (AxzVal.bool true) :=
  indexed_write_grows_array.1 [] 5 (AxzVal.bool true) (by simp)

/-- C3: object `add(key, v)` on a new key returns `Ok` and inserts the
binding; on an existing key it returns `OkReplaced`, after which lookup of
the key yields the new value and the map's size is unchanged; concretely,
after `add("a", 1); add("a", 2)` the second call returns `OkReplaced`, the
key reads as 2, and `size()` is 1. -/
theorem object_add_insert_replace :
    (∀ (m : ObjMap) (k : AxzWString) (v : AxzVal), objFind m k = none →
      AxzObject.addKey m k v = (AxzRc.ok, m ++ [(k, v)])) ∧
    (∀ (m : ObjMap) (k : AxzWString) (v2 : AxzVal),
      (objFind m k).isSome = true →
      (AxzObject.addKey m k v2).1 = AxzRc.okReplaced ∧
      objFind (AxzObject.addKey m k v2).2 k = some v2 ∧
      (AxzObject.addKey m k v2).2.length = m.length) ∧
    ((AxzObject.addKey
        (AxzObject.addKey [] [97] (AxzDict.ofInt 1)).2
        [97] (AxzDict.ofInt 2)).1 = AxzRc.okReplaced ∧
     (AxzVal.object (AxzObject.addKey
        (AxzObject.addKey [] [97] (AxzDict.ofInt 1)).2
        [97] (AxzDict.ofInt 2)).2).valKey [97] =
       (AxzRc.ok, some (AxzDict.ofInt 2)) ∧
     (AxzDict.ofInt 2).intVal = Except.ok 2 ∧
     (AxzVal.object (AxzObject.addKey
        (AxzObject.addKey [] [97] (AxzDict.ofInt 1)).2
        [97] (AxzDict.ofInt 2)).2).size = Except.ok 1) := by
  refine ⟨?_, ?_, ?_, ?_, ?_, ?_⟩
  · intro m k v h
    simp [AxzObject.addKey, h]
  · intro m k v2 h
    cases hf : objFind m k with
    | none => rw [hf] at h; simp at h
    | some w =>
      refine ⟨by simp [AxzObject.addKey, hf], ?_, ?_⟩
      · show objFind (AxzObject.addKey m k v2).2 k = some v2
        simp only [AxzObject.addKey, hf]
        exact objFind_objAssign_self m k v2 (by simp [hf])
      · simp only [AxzObject.addKey, hf]
        exact objAssign_length m k v2
  · rfl
  · rfl
  · rfl
  · rfl

/-- Witness for C3 at a one-binding map and key "a". -/
theorem object_add_insert_replace_witness :
    (AxzObject.addKey [([97], AxzVal.nul)] [97] (AxzVal.bool false)).1 =
        AxzRc.okReplaced ∧
    objFind (AxzObject.addKey [([97], AxzVal.nul)] [97]
        (AxzVal.bool false)).2 [97] = some (AxzVal.bool false) ∧
    (AxzObject.addKey [([97], AxzVal.nul)] [97]
        (AxzVal.bool false)).2.length = ([([97], AxzVal.nul)] : ObjMap).length :=
  object_add_insert_replace.2.1 [([97], AxzVal.nul)] [97]
    (AxzVal.bool false) rfl

/-- C4 counterexample: the claim states that `size()` returns the character
count for a String value; on the code, `_AxzString` does not override
`size`, so the inherited default throws and the call on the concrete
string "hi" does not return a count. -/
theorem size_on_string_fails :
    (AxzVal.size (AxzVal.string [104, 105])).isOk = false := rfl

/-- C4 (amended): `size()` returns the element count exactly for values of
tag Array and Object, and throws `std::invalid_argument` on every other
tag — including String and Bytes, whose representations do not override
the throwing default. -/
theorem size_ok_iff_array_or_object :
    (∀ v : AxzVal, (AxzVal.size v).isOk = true ↔
      (v.type = AxzDictType.array ∨ v.type = AxzDictType.object)) ∧
    (∀ xs : List AxzVal, (AxzVal.array xs).size = Except.ok xs.length) ∧
    (∀ m : ObjMap, (AxzVal.object m).size = Except.ok m.length) := by
  refine ⟨?_, fun _ => rfl, fun _ => rfl⟩
  intro v
  cases v <;> simp [AxzVal.size, AxzVal.type, Except.isOk, Except.toBool]

/-- C5: `step(stepper)` makes exactly one stepper-callback invocation, and
the invoked callback is the one whose parameter type matches the value's
current tag: the instrumented stepper records a one-element trace whose
entry carries the value's tag. -/
theorem step_invokes_exactly_one_matching :
    ∀ v : AxzVal, ∃ c : StepCall,
      v.step recordingStepper = [c] ∧ c.tag = v.type := by
  intro v
  cases v <;> exact ⟨_, rfl, rfl⟩

/-- C6: object `add(source)` with an Object source returns `Ok` and leaves
every key of the source present in the receiver; with a non-Object source
it returns `InvalidInput` and the receiver is unchanged. -/
theorem object_bulk_add :
    (∀ (m : ObjMap) (src : AxzVal), src.type ≠ AxzDictType.object →
      AxzObject.addAll m src = (AxzRc.invalidInput, m)) ∧
    (∀ (m ms : ObjMap),
      (AxzObject.addAll m (AxzVal.object ms)).1 = AxzRc.ok ∧
      ∀ k ∈ objKeys ms,
        (objFind (AxzObject.addAll m (AxzVal.object ms)).2 k).isSome =
          true) := by
  constructor
  · intro m src h
    cases src <;> first
      | rfl
      | exact absurd rfl h
  · intro m ms
    refine ⟨rfl, ?_⟩
    intro k hk
    have hs : (objFind ms k).isSome = true :=
      objFind_isSome_of_mem ms k (List.mem_dedup.mp hk)
    exact foldl_addAllStep_mem ms (objKeys ms) k hs m hk

/-- Witness for C6: merging the Null value into an empty object receiver is
rejected with `InvalidInput` and leaves the receiver unchanged. -/
theorem object_bulk_add_witness :
    AxzObject.addAll [] AxzVal.nul = (AxzRc.invalidInput, []) :=
  object_bulk_add.1 [] AxzVal.nul (by decide)

/-- C7: for every scalar tag, constructing a value from a native value and
reading it back with the matching accessor returns exactly that value:
integers (including the cached range), doubles, wide strings and booleans
all round-trip. -/
theorem scalar_roundtrip :
    (∀ v : Int, (AxzDict.ofInt v).intVal = Except.ok v) ∧
    (∀ d : Rat, (AxzDict.ofDouble d).numberVal = Except.ok d) ∧
    (∀ s : AxzWString, (AxzDict.ofWString s).stringVal = Except.ok s) ∧
    (∀ b : Bool, (AxzDict.ofBool b).boolVal = Except.ok b) := by
  refine ⟨?_, fun _ => rfl, fun _ => rfl, fun _ => rfl⟩
  intro v
  unfold AxzDict.ofInt cachedInts
  split
  · simp [AxzVal.intVal]
  · rfl

/-- C8: `dotVal(key, out)` returns exactly the same result code and output
as the plain single-key lookup `val(key, out)` for every value and every
key string, dots included: the dot-path entry point performs no
multi-segment parsing. -/
theorem dotVal_forwards_to_plain_lookup :
    ∀ (v : AxzVal) (k : AxzWString), v.dotVal k = v.valKey k :=
  fun _ _ => rfl

/-- C9: `keys()` on an Object returns exactly the set of currently-inserted
keys (a key is in the result iff the map holds a binding for it), and
`keys()` on any other tag returns the empty set. -/
theorem keys_exact :
    (∀ (m : ObjMap) (k : AxzWString),
      k ∈ (AxzVal.object m).keys ↔ (objFind m k).isSome = true) ∧
    (∀ v : AxzVal, v.type ≠ AxzDictType.object → v.keys = []) := by
  constructor
  · intro m k
    show k ∈ objKeys m ↔ (objFind m k).isSome = true
    rw [objKeys, List.mem_dedup]
    exact ⟨objFind_isSome_of_mem m k, mem_of_objFind_isSome m k⟩
  · intro v h
    cases v <;> first
      | rfl
      | exact absurd rfl h

/-- Witness for C9: `keys()` on the Null value is empty. -/
theorem keys_exact_witness : AxzVal.nul.keys = [] :=
  keys_exact.2 AxzVal.nul (by decide)

/-- C10: constructing a handle with tag CALLABLE or BYTES, and likewise
`become(CALLABLE)` or `become(BYTES)` on any handle, installs the Null
flyweight (the default switch branch), so the resulting `type()` is Null. -/
theorem callable_bytes_construct_null :
    (AxzDict.ofType AxzDictType.callable).type = AxzDictType.nul ∧
    (AxzDict.ofType AxzDictType.bytes).type = AxzDictType.nul ∧
    (∀ v : AxzVal,
      (AxzDict.become v AxzDictType.callable).type = AxzDictType.nul) ∧
    (∀ v : AxzVal,
      (AxzDict.become v AxzDictType.bytes).type = AxzDictType.nul) :=
  ⟨rfl, rfl, fun _ => rfl, fun _ => rfl⟩
